import Mathlib

/-!
Shallow embedding of the orchestration core of the llm-teaching-service
repository: the sliding-window rate limiters, the response cache (Redis-backed
and in-memory variants), the model-routing policy and the request orchestrator,
together with proofs of the specified properties.

Python strings are modelled as Lean String (with text-level operations carried
out on the underlying character list), Python floats used for timestamps,
costs and confidence scores as Rat, Python ints as Int, Python dicts as
association lists with unique keys (insertion replaces an existing binding).
The SHA-256 truncated hex digest used for cache fingerprints is kept abstract
as a function parameter.
-/

namespace LLMTeaching

/-- Python truthiness of an optional string: None and the empty string are
falsy, every other string is truthy (used by code such as
if request.model_preference). -/
def pyTruthyStr : Option String → Bool
  | none => false
  | some s => !(s == "")

/-- Python x or d for an optional string x: yields d when x is None or
empty, x itself otherwise (models request.model_preference or "default"). -/
def pyOrStr (o : Option String) (d : String) : String :=
  match o with
  | none => d
  | some s => if s == "" then d else s

/-- Python truthiness of an optional int (ttl_seconds or self.default_ttl):
None and 0 are falsy. -/
def pyOrInt (o : Option Int) (d : Int) : Int :=
  match o with
  | none => d
  | some v => if v == 0 then d else v

/-- Python truthiness of an optional dict (bool(request.additional_context)):
None and the empty dict are falsy. -/
def pyTruthyCtx : Option (List (String × String)) → Bool
  | none => false
  | some l => !l.isEmpty

/-- Lookup in a Python-dict model (association list). -/
def assocGet {β : Type} : List (String × β) → String → Option β
  | [], _ => none
  | (k, v) :: rest, key => if k == key then some v else assocGet rest key

/-- Lookup with a default value. -/
def assocGetD {β : Type} (st : List (String × β)) (key : String) (d : β) : β :=
  (assocGet st key).getD d

/-- Python-dict assignment: replace the binding in place when the key exists,
append it otherwise. -/
def assocSet {β : Type} : List (String × β) → String → β → List (String × β)
  | [], key, v => [(key, v)]
  | (k, w) :: rest, key, v =>
    if k == key then (key, v) :: rest else (k, w) :: assocSet rest key v

/-- Membership test of a key in a Python-dict model. -/
def assocHasKey {β : Type} (st : List (String × β)) (key : String) : Bool :=
  (assocGet st key).isSome

/-! ## Domain model (src/core/models.py) -/

/-- Student grade levels (GradeLevel enum). -/
inductive GradeLevel where
  | elementary
  | middle_school
  | high_school
  | college
deriving DecidableEq, Repr

/-- The string value of a GradeLevel member. -/
def GradeLevel.value : GradeLevel → String
  | .elementary => "elementary"
  | .middle_school => "middle_school"
  | .high_school => "high_school"
  | .college => "college"

/-- Academic subjects (Subject enum). -/
inductive Subject where
  | math
  | science
  | physics
  | chemistry
  | biology
  | history
  | literature
  | english
  | computer_science
  | other
deriving DecidableEq, Repr

/-- The string value of a Subject member. -/
def Subject.value : Subject → String
  | .math => "math"
  | .science => "science"
  | .physics => "physics"
  | .chemistry => "chemistry"
  | .biology => "biology"
  | .history => "history"
  | .literature => "literature"
  | .english => "english"
  | .computer_science => "computer_science"
  | .other => "other"

/-- A single message in a conversation (ConversationMessage). -/
structure ConversationMessage where
  role : String
  content : String
  timestamp : Option Rat := none
deriving DecidableEq, Repr

/-- Request for teaching assistance (TeachingRequest). additional_context is a
Python dict modelled as an ordered association list. -/
structure TeachingRequest where
  student_id : String
  question : String
  subject : Subject
  grade_level : GradeLevel
  conversation_history : List ConversationMessage := []
  model_preference : Option String := none
  additional_context : Option (List (String × String)) := none
deriving DecidableEq, Repr

/-- Response from an LLM provider (LLMResponse). -/
structure LLMResponse where
  content : String
  model_used : String
  tokens_used : Nat
  processing_time_ms : Int
  cost : Rat := 0
deriving DecidableEq, Repr

/-- Response for a teaching assistance request (TeachingResponse). -/
structure TeachingResponse where
  answer : String
  model_used : String
  tokens_used : Nat
  estimated_cost : Rat
  confidence : Rat
  source : String
  processing_time_ms : Int
  follow_up_suggestions : List String := []
  learning_resources : List String := []
deriving DecidableEq, Repr

/-! ## Rate limiters (src/domain/rate_limit/rate_limiter.py) -/

/-- Outcome of a check_limit call: normal return True, or the
RateLimitExceeded exception carrying retry_after. -/
inductive LimitResult where
  | allowed
  | rejected (retryAfter : Int)
deriving DecidableEq, Repr

/-- State of the InMemoryRateLimiter: self.requests, a dict from identifier to
the list of admitted timestamps (monotonic seconds, modelled as Rat). -/
def InMemLimiterState : Type := List (String × List Rat)

/-- InMemoryRateLimiter.check_limit: prune timestamps at or before
now - window_seconds (strictly greater survive), store the pruned list back,
then reject when the retained count is at or above the limit, else append the
current timestamp and allow. -/
def imCheckLimit (st : InMemLimiterState) (identifier : String) (limit : Int)
    (window_seconds : Int) (now : Rat) : LimitResult × InMemLimiterState :=
  let windowStart : Rat := now - (window_seconds : Rat)
  let pruned := (assocGetD st identifier []).filter (fun ts => decide (windowStart < ts))
  if (pruned.length : Int) ≥ limit then
    (.rejected window_seconds, assocSet st identifier pruned)
  else
    (.allowed, assocSet st identifier (pruned ++ [now]))

/-- InMemoryRateLimiter.get_remaining: prune-and-count without inserting. -/
def imGetRemaining (st : InMemLimiterState) (identifier : String) (limit : Int)
    (window_seconds : Int) (now : Rat) : Int :=
  let windowStart : Rat := now - (window_seconds : Rat)
  match assocGet st identifier with
  | none => limit
  | some tss => max 0 (limit - ((tss.filter (fun ts => decide (windowStart < ts))).length : Int))

/-- InMemoryRateLimiter.reset_limit: drop the identifier's entry. -/
def imResetLimit (st : InMemLimiterState) (identifier : String) : InMemLimiterState :=
  st.filter (fun kv => !(kv.1 == identifier))

/-- RedisRateLimiter.check_limit on the sorted set stored at the identifier's
key: the pipeline removes scores in the interval from 0 to now - window_seconds
inclusive, counts the remainder, and unconditionally adds the current
timestamp (member str(now), so adding a timestamp already present leaves the
set unchanged); the count taken before the insertion decides
admission, and rejection carries retry_after = window_seconds. -/
def redisCheckLimit (zset : List Rat) (limit : Int) (window_seconds : Int)
    (now : Rat) : LimitResult × List Rat :=
  let windowStart : Rat := now - (window_seconds : Rat)
  let pruned := zset.filter (fun ts => !(decide (0 ≤ ts) && decide (ts ≤ windowStart)))
  let currentCount : Int := pruned.length
  let afterAdd := if now ∈ pruned then pruned else pruned ++ [now]
  if currentCount ≥ limit then
    (.rejected window_seconds, afterAdd)
  else
    (.allowed, afterAdd)

/-! ## Cache fingerprint (RedisCacheService._generate_cache_key and
InMemoryCacheService._generate_cache_key, src/adapters/cache/redis_cache.py) -/

/-- The cache key built by _generate_cache_key. The first 16 hex characters
of the SHA-256 digest of the question text are abstracted as the function
parameter questionHash. -/
def generateCacheKey (questionHash : String → String) (req : TeachingRequest) : String :=
  "teaching:" ++ req.subject.value ++ ":" ++ req.grade_level.value ++ ":"
    ++ pyOrStr req.model_preference ("default") ++ ":" ++ questionHash req.question

/-! ## In-memory cache service (InMemoryCacheService) -/

/-- State of the InMemoryCacheService: the dict self._cache plus the hit and
miss counters. -/
structure InMemCacheState where
  cache : List (String × TeachingResponse) := []
  hitCount : Nat := 0
  missCount : Nat := 0
deriving DecidableEq, Repr

/-- InMemoryCacheService.get_teaching_response: return the stored response and
bump the hit counter when the key is present, otherwise bump the miss
counter. -/
def imGetTeachingResponse (questionHash : String → String) (st : InMemCacheState)
    (req : TeachingRequest) : Option TeachingResponse × InMemCacheState :=
  let key := generateCacheKey questionHash req
  match assocGet st.cache key with
  | some r => (some r, { st with hitCount := st.hitCount + 1 })
  | none => (none, { st with missCount := st.missCount + 1 })

/-- InMemoryCacheService.set_teaching_response: store under the generated key;
the ttl_seconds argument is accepted but not consulted (TTL is not enforced
by the in-memory cache). -/
def imSetTeachingResponse (questionHash : String → String) (st : InMemCacheState)
    (req : TeachingRequest) (resp : TeachingResponse)
    (ttl_seconds : Option Int) : InMemCacheState :=
  let _ := ttl_seconds
  { st with cache := assocSet st.cache (generateCacheKey questionHash req) resp }

/-- Python substring membership needle in hay on the character lists of two
strings. -/
def containsSub (hay needle : List Char) : Bool :=
  (List.range (hay.length + 1)).any (fun i => needle.isPrefixOf (hay.drop i))

/-- InMemoryCacheService.invalidate_cache: remove every asterisk from the
pattern and delete the entries whose key contains the result as a substring,
returning how many were deleted. -/
def imInvalidateCache (st : InMemCacheState) (pat : String) : Nat × InMemCacheState :=
  let needle := pat.data.filter (fun c => !(c == '*'))
  let keysToDelete := (st.cache.filter (fun kv => containsSub kv.1.data needle)).map (fun kv => kv.1)
  (keysToDelete.length,
    { st with cache := st.cache.filter (fun kv => !(containsSub kv.1.data needle)) })

/-! ## Redis-backed cache service (RedisCacheService) -/

/-- Model of the Redis key/value commands the cache service uses: the store
maps a key to its string value together with its absolute expiry time.
SETEX key ttl value records expiry now + ttl; GET returns the value only
strictly before the expiry time and nil afterwards. -/
def RedisDb : Type := List (String × String × Int)

/-- Redis SETEX at the current time. -/
def redisSetex (db : RedisDb) (now : Int) (key value : String) (ttl : Int) : RedisDb :=
  assocSet db key (value, now + ttl)

/-- Redis GET at the current time: nil once the key has expired. -/
def redisGetKey (db : RedisDb) (now : Int) (key : String) : Option String :=
  match assocGet db key with
  | some (v, expiresAt) => if now < expiresAt then some v else none
  | none => none

/-- State of the RedisCacheService: the backing Redis store, the configured
default TTL and the hit and miss counters. -/
structure RedisCacheState where
  db : RedisDb := []
  defaultTtl : Int := 3600
  hitCount : Nat := 0
  missCount : Nat := 0

/-- RedisCacheService.get_teaching_response. The whole body runs inside a
try/except that converts any failure into a miss, so the model is total:
fetchFails = true models the Redis GET raising (connection error), in which
case the except branch bumps the miss counter and returns None; dec models
json.loads followed by the TeachingResponse constructor, whose failure on a
fetched value is likewise caught after the hit counter has been bumped. A
fetched empty string is falsy in Python and counts as a miss. -/
def redisGetTeachingResponse (questionHash : String → String)
    (dec : String → Option TeachingResponse) (st : RedisCacheState) (now : Int)
    (req : TeachingRequest) (fetchFails : Bool) :
    Option TeachingResponse × RedisCacheState :=
  if fetchFails then
    (none, { st with missCount := st.missCount + 1 })
  else
    let key := generateCacheKey questionHash req
    match redisGetKey st.db now key with
    | some cachedData =>
      if cachedData == "" then
        (none, { st with missCount := st.missCount + 1 })
      else
        match dec cachedData with
        | some r => (some r, { st with hitCount := st.hitCount + 1 })
        | none =>
          (none, { st with hitCount := st.hitCount + 1, missCount := st.missCount + 1 })
    | none => (none, { st with missCount := st.missCount + 1 })

/-- RedisCacheService.set_teaching_response: serialize (enc models json.dumps
of model_dump) and SETEX under the generated key with
ttl = ttl_seconds or self.default_ttl. The body runs inside a try/except
that swallows any failure, so the model is total: writeFails = true models
the SETEX raising, in which case the store is left unchanged and the call
still returns normally. -/
def redisSetTeachingResponse (questionHash : String → String)
    (enc : TeachingResponse → String) (st : RedisCacheState) (now : Int)
    (req : TeachingRequest) (resp : TeachingResponse) (ttl_seconds : Option Int)
    (writeFails : Bool) : RedisCacheState :=
  if writeFails then st
  else
    let key := generateCacheKey questionHash req
    let ttl := pyOrInt ttl_seconds st.defaultTtl
    { st with db := redisSetex st.db now key (enc resp) ttl }

/-! ## Teaching service (src/domain/teaching/service.py) -/

/-- The fixed set of advanced subjects in TeachingService._select_model. -/
def advancedSubjects : List String := ["physics", "chemistry", "computer_science"]

/-- The heuristic fallback of TeachingService._select_model, reached when no
valid explicit preference applies: complex questions (long text, auxiliary
context, or college level) on advanced subjects are routed to the upgraded
model when it is available, everything else to the default model. -/
def selectModelHeuristic (req : TeachingRequest) (availableModels : List String)
    (defaultModel : String) : String :=
  let questionLength := req.question.length
  let hasContext := pyTruthyCtx req.additional_context
  let isAdvanced := decide (req.subject.value ∈ advancedSubjects)
  let isCollege := req.grade_level.value == "college"
  let isComplex := decide (questionLength > 500) || hasContext || isCollege
  if isComplex && isAdvanced then
    if "llama3-8b-advanced" ∈ availableModels then "llama3-8b-advanced"
    else defaultModel
  else defaultModel

/-- TeachingService._select_model: a truthy (non-None, non-empty) explicit
preference that appears in the available-model list is returned verbatim;
otherwise the complexity/subject heuristic decides. -/
def selectModel (req : TeachingRequest) (availableModels : List String)
    (defaultModel : String) : String :=
  match req.model_preference with
  | some p =>
    if p == "" then selectModelHeuristic req availableModels defaultModel
    else if p ∈ availableModels then p
    else selectModelHeuristic req availableModels defaultModel
  | none => selectModelHeuristic req availableModels defaultModel

/-- The whitespace characters stripped by Python str.strip (ASCII range). -/
def isPyWhitespace (c : Char) : Bool :=
  c == ' ' || c == '\t' || c == '\n' || c == '\r' || c == Char.ofNat 11 || c == Char.ofNat 12

/-- Python str.strip: drop leading and trailing whitespace. -/
def pyStrip (s : String) : String :=
  ⟨((s.data.dropWhile isPyWhitespace).reverse.dropWhile isPyWhitespace).reverse⟩

/-- TeachingService._post_process_response: strip the raw answer, and when the
result exceeds 2000 characters keep its first 2000 characters and append the
"..." truncation marker. -/
def postProcessResponse (rawResponse : String) : String :=
  let processed := pyStrip rawResponse
  let maxLength := 2000
  if processed.length > maxLength then ⟨processed.data.take maxLength⟩ ++ "..."
  else processed

/-- TeachingService._generate_follow_up_suggestions: subject-specific
suggestions, then the generic one, capped at three. -/
def generateFollowUpSuggestions (req : TeachingRequest) : List String :=
  let subjectSuggestions : List String :=
    if req.subject.value == "math" then
      ["Can you show me another example?", "How would this apply to a real-world problem?"]
    else if req.subject.value ∈ (["science", "physics", "chemistry", "biology"] : List String) then
      ["Can you explain the underlying principle?", "What are some real-world applications?"]
    else if req.subject.value ∈ (["history", "literature"] : List String) then
      ["What was the historical context?", "How does this relate to other events?"]
    else []
  (subjectSuggestions ++ ["Can you explain this in simpler terms?"]).take 3

/-- TeachingService._suggest_learning_resources. -/
def suggestLearningResources (req : TeachingRequest) : List String :=
  if req.subject.value == "math" then
    ["Khan Academy - Math", "Brilliant.org - Interactive Math"]
  else if req.subject.value ∈ (["science", "physics"] : List String) then
    ["PhET Interactive Simulations", "Khan Academy - Physics"]
  else []

/-- TeachingService._calculate_confidence: start at 0.7, subtract 0.2 for a
content length below 50, add 0.1 for one above 200, clamp to the unit
interval. -/
def calculateConfidence (llmResponse : LLMResponse) : Rat :=
  let confidence : Rat := 7 / 10
  let responseLength := llmResponse.content.length
  let confidence :=
    if responseLength < 50 then confidence - 2 / 10
    else if responseLength > 200 then confidence + 1 / 10
    else confidence
  max 0 (min 1 confidence)

/-- Python str.capitalize: first character uppercased, the rest lowercased. -/
def pyCapitalize (s : String) : String :=
  match s.data with
  | [] => ⟨[]⟩
  | c :: rest => ⟨c.toUpper :: rest.map Char.toLower⟩

/-- Python str.title restricted to the ASCII letters appearing in enum values:
a letter is uppercased when it does not follow a letter and lowercased when
it does. -/
def pyTitleAux : Bool → List Char → List Char
  | _, [] => []
  | prevAlpha, c :: rest =>
    let c2 := if c.isAlpha then (if prevAlpha then c.toLower else c.toUpper) else c
    c2 :: pyTitleAux c.isAlpha rest

/-- Python str.title on a string. -/
def pyTitle (s : String) : String := ⟨pyTitleAux false s.data⟩

/-- Python s.replace of underscores by spaces followed by title-casing, as
applied to the subject and grade-level enum values in the prompt builder. -/
def displayEnumValue (s : String) : String :=
  pyTitle ⟨s.data.map (fun c => if c == '_' then ' ' else c)⟩

/-- Python list[-5:]: the last five elements. -/
def lastFive {α : Type} (l : List α) : List α := l.drop (l.length - 5)

/-- TeachingService._build_teaching_prompt: conversation tail, subject and
grade framing, optional additional context, pedagogical directives and the
literal question, joined with newlines (the model_config argument of the
source function is never used by its body). -/
def buildTeachingPrompt (req : TeachingRequest) : String :=
  let historyParts : List String :=
    if !req.conversation_history.isEmpty then
      ["Previous conversation:"]
        ++ (lastFive req.conversation_history).map
          (fun msg => pyCapitalize msg.role ++ ": " ++ msg.content)
        ++ [""]
    else []
  let contextParts : List String :=
    match req.additional_context with
    | some ctx =>
      if !ctx.isEmpty then
        ["Additional Context:"] ++ ctx.map (fun kv => "- " ++ kv.1 ++ ": " ++ kv.2) ++ [""]
      else []
    | none => []
  let parts : List String :=
    historyParts
      ++ ["Subject: " ++ displayEnumValue req.subject.value,
          "Grade Level: " ++ displayEnumValue req.grade_level.value,
          ""]
      ++ contextParts
      ++ ["Teaching Guidelines:",
          "- Use Socratic questioning to guide learning",
          "- Encourage critical thinking and problem-solving",
          "- Provide clear explanations with examples",
          "- Adapt language to the student's grade level",
          "- Be encouraging and supportive",
          "",
          "Student Question: " ++ req.question,
          "",
          "Please provide a helpful, educational response:"]
  String.intercalate "\n" parts

/-- Failure modes surfaced by ask_question: the RateLimitExceeded exception
with its retry hint, or a provider failure re-raised after being recorded. -/
inductive AskError where
  | rateLimited (retryAfter : Int)
  | providerError
deriving DecidableEq, Repr

/-- Mutable state touched by one TeachingService.ask_question call when wired
to the in-memory adapters: the rate limiter dict, the cache, and the
database-side conversation log and usage metrics. -/
structure TeachingServiceState where
  limiter : InMemLimiterState := []
  cacheState : InMemCacheState := {}
  savedConversations : List (String × TeachingRequest × TeachingResponse) := []
  usageMetrics : List (String × String × Nat × Rat) := []

/-- TeachingService.ask_question wired to the in-memory rate limiter and
cache. The LLM provider is a function from the built prompt to either an
LLMResponse or a failure; now feeds the rate limiter clock and elapsedMs
models int((time.time() - start_time) * 1000) at response construction.
The hard-coded limit 10 and window 60 of the source are used. Returns the
outcome (response, or the propagated exception) together with the state
after the call. -/
def askQuestion (questionHash : String → String) (availableModels : List String)
    (defaultModel : String) (provider : String → Except Unit LLMResponse)
    (now : Rat) (elapsedMs : Int) (st : TeachingServiceState)
    (req : TeachingRequest) : Except AskError TeachingResponse × TeachingServiceState :=
  match imCheckLimit st.limiter req.student_id 10 60 now with
  | (.rejected retryAfter, limiter2) =>
    (.error (.rateLimited retryAfter), { st with limiter := limiter2 })
  | (.allowed, limiter2) =>
    let st1 := { st with limiter := limiter2 }
    match imGetTeachingResponse questionHash st1.cacheState req with
    | (some cached, cacheState2) =>
      (.ok { answer := cached.answer
             model_used := cached.model_used
             tokens_used := cached.tokens_used
             estimated_cost := cached.estimated_cost
             confidence := cached.confidence
             source := "cache"
             processing_time_ms := elapsedMs
             follow_up_suggestions := cached.follow_up_suggestions
             learning_resources := cached.learning_resources },
       { st1 with cacheState := cacheState2 })
    | (none, cacheState2) =>
      let st2 := { st1 with cacheState := cacheState2 }
      let modelId := selectModel req availableModels defaultModel
      let prompt := buildTeachingPrompt req
      match provider prompt with
      | .error _ => (.error .providerError, st2)
      | .ok llmResponse =>
        let processedAnswer := postProcessResponse llmResponse.content
        let followUps := generateFollowUpSuggestions req
        let confidence := calculateConfidence llmResponse
        let teachingResponse : TeachingResponse :=
          { answer := processedAnswer
            model_used := modelId
            tokens_used := llmResponse.tokens_used
            estimated_cost := llmResponse.cost
            confidence := confidence
            source := "llm"
            processing_time_ms := elapsedMs
            follow_up_suggestions := followUps
            learning_resources := suggestLearningResources req }
        let st3 := { st2 with
          cacheState := imSetTeachingResponse questionHash st2.cacheState req
            teachingResponse (some 3600) }
        let st4 := { st3 with
          savedConversations :=
            st3.savedConversations ++ [(req.student_id, req, teachingResponse)] }
        let st5 := { st4 with
          usageMetrics :=
            st4.usageMetrics
              ++ [(req.student_id, modelId, llmResponse.tokens_used, llmResponse.cost)] }
        (.ok teachingResponse, st5)

/-! ## Spec-side definitions

These definitions follow the wording of the specification (not the source)
and exist to be compared with the embedded code. -/

/-- Glob-style pattern matching as named by the spec for cache invalidation:
a literal character matches itself and an asterisk matches any sequence of
characters; the whole key must match the whole pattern. -/
def globMatch : List Char → List Char → Bool
  | [], s => s.isEmpty
  | p :: ps, s =>
    if p == '*' then (List.range (s.length + 1)).any (fun i => globMatch ps (s.drop i))
    else
      match s with
      | [] => false
      | c :: cs => (p == c) && globMatch ps cs

/-- RedisCacheService.invalidate_cache: the SCAN loop walks the whole keyspace
with MATCH pattern — server-side glob matching, modelled by globMatch over
the asterisk-and-literal fragment the cache patterns use — and deletes every
matched key, accumulating the deletion counts until the cursor returns 0; its
net effect over the model store is to remove exactly the glob-matching
entries and return how many there were. The body runs inside a try/except
returning 0 on a failure, modelled by scanFails. -/
def redisInvalidateCache (st : RedisCacheState) (pat : String)
    (scanFails : Bool) : Nat × RedisCacheState :=
  if scanFails then (0, st)
  else
    ((st.db.filter (fun kv => globMatch pat.data kv.1.data)).length,
      { st with db := st.db.filter (fun kv => !(globMatch pat.data kv.1.data)) })

/-- Spec complexity classification: question text over 500 characters, or
caller-supplied auxiliary context present (a supplied-but-empty map counts as
absent, matching Python truthiness), or the highest grade tier. -/
def specIsComplex (req : TeachingRequest) : Prop :=
  req.question.length > 500 ∨ pyTruthyCtx req.additional_context = true ∨
    req.grade_level = .college

/-- Spec advanced-subject classification: physics, chemistry or the
computer-science subject. -/
def specIsAdvanced (req : TeachingRequest) : Prop :=
  req.subject = .physics ∨ req.subject = .chemistry ∨ req.subject = .computer_science

instance (req : TeachingRequest) : Decidable (specIsComplex req) := by
  unfold specIsComplex; exact inferInstance

instance (req : TeachingRequest) : Decidable (specIsAdvanced req) := by
  unfold specIsAdvanced; exact inferInstance

/-- ModelRouter.select as worded by the spec, first match wins: an explicit
(truthy) preference listed in available_models is used verbatim; else a
complex request on an advanced subject routes to the upgraded model when
available; else the default model. -/
def specModelRouterSelect (req : TeachingRequest) (availableModels : List String)
    (defaultModel : String) : String :=
  if pyTruthyStr req.model_preference = true ∧
      req.model_preference.getD "" ∈ availableModels then
    req.model_preference.getD ""
  else if specIsComplex req ∧ specIsAdvanced req ∧
      "llama3-8b-advanced" ∈ availableModels then
    "llama3-8b-advanced"
  else defaultModel

/-- The four fields the claimed fingerprint is built from agree: subject,
grade level, effective model (the literal preference or the literal token
default when none was supplied) and question text. -/
def sameFingerprintFields (r1 r2 : TeachingRequest) : Prop :=
  r1.subject = r2.subject ∧ r1.grade_level = r2.grade_level ∧
    pyOrStr r1.model_preference ("default") = pyOrStr r2.model_preference ("default") ∧
    r1.question = r2.question

/-- Exactly one of the four fingerprint fields changed. In the question-text
case the requests are additionally assumed to have distinct truncated
question digests: this is the collision-resistance the spec itself invokes
(distinct fingerprints with overwhelming probability), which a shallow
embedding keeps as a hypothesis on the abstract hash. -/
def oneFingerprintFieldChanged (questionHash : String → String)
    (r1 r2 : TeachingRequest) : Prop :=
  (r1.subject ≠ r2.subject ∧ r1.grade_level = r2.grade_level ∧
      pyOrStr r1.model_preference ("default") = pyOrStr r2.model_preference ("default") ∧
      r1.question = r2.question) ∨
  (r1.subject = r2.subject ∧ r1.grade_level ≠ r2.grade_level ∧
      pyOrStr r1.model_preference ("default") = pyOrStr r2.model_preference ("default") ∧
      r1.question = r2.question) ∨
  (r1.subject = r2.subject ∧ r1.grade_level = r2.grade_level ∧
      pyOrStr r1.model_preference ("default") ≠ pyOrStr r2.model_preference ("default") ∧
      r1.question = r2.question) ∨
  (r1.subject = r2.subject ∧ r1.grade_level = r2.grade_level ∧
      pyOrStr r1.model_preference ("default") = pyOrStr r2.model_preference ("default") ∧
      r1.question ≠ r2.question ∧ questionHash r1.question ≠ questionHash r2.question)

/-- Sequential admissions through the in-memory limiter at the given
timestamps, threading the limiter state. -/
def runAdmits (st : InMemLimiterState) (identifier : String) (limit window : Int) :
    List Rat → List LimitResult × InMemLimiterState
  | [] => ([], st)
  | t :: ts =>
    let step := imCheckLimit st identifier limit window t
    let rest := runAdmits step.2 identifier limit window ts
    (step.1 :: rest.1, rest.2)

/-- The timestamps of an identity retained by the in-memory limiter's pruning
step: those strictly newer than now - window_seconds. -/
def retainedTimestamps (st : InMemLimiterState) (identifier : String)
    (window_seconds : Int) (now : Rat) : List Rat :=
  (assocGetD st identifier []).filter (fun ts => decide (now - (window_seconds : Rat) < ts))

/-- The scores retained by the Redis limiter's ZREMRANGEBYSCORE step, which
removes the closed interval from 0 to now - window_seconds. -/
def redisRetainedTimestamps (zset : List Rat) (window_seconds : Int) (now : Rat) :
    List Rat :=
  zset.filter (fun ts => !(decide (0 ≤ ts) && decide (ts ≤ now - (window_seconds : Rat))))

/-! ## Concrete sample data used by witnesses and counterexamples -/

/-- A stand-in for the truncated SHA-256 question digest, used where a
concrete hash function is needed. -/
def constHash : String → String := fun _ => "0000000000000000"

/-- The concrete math request of the spec scenarios. -/
def sampleMathRequest : TeachingRequest :=
  { student_id := "s1", question := "What is 2+2?", subject := .math,
    grade_level := .elementary }

/-- A science request agreeing with the math request on every fingerprint
field except the subject. -/
def sampleScienceRequest : TeachingRequest :=
  { student_id := "s1", question := "What is 2+2?", subject := .science,
    grade_level := .elementary }

/-- The cached response of the spec scenario, with answer 4. -/
def sampleCachedResponse : TeachingResponse :=
  { answer := "4", model_used := "phi3-mini", tokens_used := 10,
    estimated_cost := 0, confidence := 1, source := "llm",
    processing_time_ms := 100 }

/-- A second stored response used to populate a two-entry cache. -/
def sampleScienceResponse : TeachingResponse :=
  { answer := "Light into sugar.", model_used := "phi3-mini", tokens_used := 12,
    estimated_cost := 0, confidence := 1, source := "llm",
    processing_time_ms := 120 }

/-- A provider that always fails; the cache-hit path never consults it. -/
def failProvider : String → Except Unit LLMResponse := fun _ => .error ()

/-- A raw provider answer of 2001 identical non-whitespace characters. -/
def longCharAnswer : String := ⟨List.replicate 2001 'a'⟩

/-- The service state holding the limiter at rest and the cache populated with
the stored answer 4 for the math request. -/
def sampleHitState : TeachingServiceState :=
  { cacheState := imSetTeachingResponse constHash {} sampleMathRequest
      sampleCachedResponse none }

/-- A cache populated with one math-subject entry and one science-subject
entry. -/
def sampleTwoEntryCache : InMemCacheState :=
  imSetTeachingResponse constHash
    (imSetTeachingResponse constHash {} sampleMathRequest sampleCachedResponse none)
    sampleScienceRequest sampleScienceResponse none

/-- A serializer stand-in used where a concrete encoder is needed. -/
def constEnc : TeachingResponse → String := fun _ => "enc"

/-- The Redis-backed cache state after storing one math-subject entry and one
science-subject entry at time 0 with the default TTL. -/
def sampleTwoEntryRedisCache : RedisCacheState :=
  redisSetTeachingResponse constHash constEnc
    (redisSetTeachingResponse constHash constEnc {} 0 sampleMathRequest
      sampleCachedResponse none false)
    0 sampleScienceRequest sampleScienceResponse none false

instance (r1 r2 : TeachingRequest) : Decidable (sameFingerprintFields r1 r2) := by
  unfold sameFingerprintFields; exact inferInstance

instance (questionHash : String → String) (r1 r2 : TeachingRequest) :
    Decidable (oneFingerprintFieldChanged questionHash r1 r2) := by
  unfold oneFingerprintFieldChanged; exact inferInstance

/-! ## Helper lemmas -/

theorem string_data_append (a b : String) : (a ++ b).data = a.data ++ b.data := by
  cases a; cases b; rfl

theorem string_data_inj {a b : String} (h : a.data = b.data) : a = b := by
  cases a; cases b; exact congrArg String.mk h

theorem assocGet_assocSet_self {β : Type} (st : List (String × β)) (k : String) (v : β) :
    assocGet (assocSet st k v) k = some v := by
  induction st with
  | nil => simp [assocGet, assocSet]
  | cons hd tl ih =>
    by_cases h : hd.1 = k
    · simp [assocSet, assocGet, h]
    · simp only [assocSet, assocGet]
      rw [if_neg (by simpa using h)]
      simp only [assocGet]
      rw [if_neg (by simpa using h)]
      exact ih

theorem assocGet_assocSet_ne {β : Type} (st : List (String × β)) (k1 k2 : String) (v : β)
    (h : k1 ≠ k2) : assocGet (assocSet st k1 v) k2 = assocGet st k2 := by
  induction st with
  | nil => simp [assocGet, assocSet, h]
  | cons hd tl ih =>
    by_cases hk : hd.1 = k1
    · simp [assocSet, assocGet, hk, h]
    · simp only [assocSet, assocGet]
      rw [if_neg (by simpa using hk)]
      simp only [assocGet]
      rcases eq_or_ne hd.1 k2 with h2 | h2
      · rw [if_pos (by simpa using h2), if_pos (by simpa using h2)]
      · rw [if_neg (by simpa using h2), if_neg (by simpa using h2)]
        exact ih

theorem subjectValue_inj : ∀ a b : Subject, a.value = b.value → a = b := by
  intro a b h
  cases a <;> cases b <;> first | rfl | (exact absurd h (by decide))

theorem gradeLevelValue_inj : ∀ a b : GradeLevel, a.value = b.value → a = b := by
  intro a b h
  cases a <;> cases b <;> first | rfl | (exact absurd h (by decide))

/-- The cache key decomposed into its colon-separated components at the
character-list level. -/
theorem generateCacheKey_data (questionHash : String → String) (req : TeachingRequest) :
    (generateCacheKey questionHash req).data =
      ("teaching:").data ++ (req.subject.value.data
        ++ ':' :: (req.grade_level.value.data
          ++ ':' :: ((pyOrStr req.model_preference ("default")).data
            ++ ':' :: (questionHash req.question).data))) := by
  simp only [generateCacheKey, string_data_append, List.append_assoc]
  rfl

/-! ## Claim theorems -/

/-- Claim C1. Sliding-window admission control: for both limiter
implementations, after pruning to the timestamps retained inside the trailing
window, check_limit allows exactly when the retained count is below the
limit, and otherwise raises RateLimitExceeded with retry_after equal to
window_seconds; concretely, with limit 10 and window 60 seconds, ten
consecutive admissions for identity s1 succeed and the eleventh is rejected
with retry_after 60. -/
theorem sliding_window_admission_control :
    (∀ (st : InMemLimiterState) (identifier : String) (limit window_seconds : Int)
        (now : Rat),
      (((imCheckLimit st identifier limit window_seconds now).1 = .allowed) ↔
        ((retainedTimestamps st identifier window_seconds now).length : Int) < limit) ∧
      (((imCheckLimit st identifier limit window_seconds now).1 =
          .rejected window_seconds) ↔
        ((retainedTimestamps st identifier window_seconds now).length : Int) ≥ limit)) ∧
    (∀ (zset : List Rat) (limit window_seconds : Int) (now : Rat),
      (((redisCheckLimit zset limit window_seconds now).1 = .allowed) ↔
        ((redisRetainedTimestamps zset window_seconds now).length : Int) < limit) ∧
      (((redisCheckLimit zset limit window_seconds now).1 =
          .rejected window_seconds) ↔
        ((redisRetainedTimestamps zset window_seconds now).length : Int) ≥ limit)) ∧
    (runAdmits [] ("s1") 10 60 [1, 2, 3, 4, 5, 6, 7, 8, 9, 10, 11]).1 =
      List.replicate 10 .allowed ++ [.rejected 60] := by
  refine ⟨?_, ?_, ?_⟩
  · intro st identifier limit window_seconds now
    simp only [imCheckLimit, retainedTimestamps]
    by_cases h : ((((assocGetD st identifier []).filter
        (fun ts => decide (now - (window_seconds : Rat) < ts))).length : Int) ≥ limit)
    · rw [if_pos h]
      exact ⟨⟨fun hx => absurd hx (by simp), fun hx => absurd h (by omega)⟩,
        ⟨fun _ => h, fun _ => rfl⟩⟩
    · rw [if_neg h]
      exact ⟨⟨fun _ => by omega, fun _ => rfl⟩,
        ⟨fun hx => absurd hx (by simp), fun hx => absurd hx h⟩⟩
  · intro zset limit window_seconds now
    simp only [redisCheckLimit, redisRetainedTimestamps]
    by_cases h : (((zset.filter
        (fun ts => !(decide (0 ≤ ts) && decide (ts ≤ now - (window_seconds : Rat))))).length :
          Int) ≥ limit)
    · rw [if_pos h]
      exact ⟨⟨fun hx => absurd hx (by simp), fun hx => absurd h (by omega)⟩,
        ⟨fun _ => h, fun _ => rfl⟩⟩
    · rw [if_neg h]
      exact ⟨⟨fun _ => by omega, fun _ => rfl⟩,
        ⟨fun hx => absurd hx (by simp), fun hx => absurd hx h⟩⟩
  · norm_num [runAdmits, imCheckLimit, assocGetD, assocGet, assocSet, List.filter,
      List.replicate]

/-- Claim C2, counterexample. The Redis limiter's pipeline adds the current
timestamp before the count is examined, so a rejected call does not leave the
window in its pruned state: with one fresh timestamp 100, limit 1, window 60
and now = 130, the call rejects yet the stored window afterwards is
[100, 130], not the pruned [100] required by the claim. -/
theorem redis_reject_inserts_timestamp_counterexample :
    redisCheckLimit [(100 : Rat)] 1 60 130 = (.rejected 60, [(100 : Rat), 130]) ∧
    redisRetainedTimestamps [(100 : Rat)] 60 130 = [(100 : Rat)] ∧
    ([(100 : Rat), 130] ≠ [(100 : Rat)]) := by
  refine ⟨?_, ?_, by decide⟩
  · norm_num [redisCheckLimit, List.filter]
  · norm_num [redisRetainedTimestamps, List.filter]

/-- Claim C2, amended. A rejected call of the in-memory limiter leaves the
identity's recorded window equal to its state after pruning alone (the
current timestamp is inserted only on the allow branch); the Redis limiter
instead always leaves the window equal to its pruned state with the current
timestamp added, also when the call rejects. -/
theorem rejected_admission_window_state :
    (∀ (st : InMemLimiterState) (identifier : String) (limit window_seconds : Int)
        (now : Rat),
      ((retainedTimestamps st identifier window_seconds now).length : Int) ≥ limit →
        imCheckLimit st identifier limit window_seconds now =
          (.rejected window_seconds,
            assocSet st identifier (retainedTimestamps st identifier window_seconds now))) ∧
    (∀ (zset : List Rat) (limit window_seconds : Int) (now : Rat),
      now ∉ redisRetainedTimestamps zset window_seconds now →
        (redisCheckLimit zset limit window_seconds now).2 =
          redisRetainedTimestamps zset window_seconds now ++ [now]) := by
  constructor
  · intro st identifier limit window_seconds now h
    simp only [imCheckLimit, retainedTimestamps] at h ⊢
    rw [if_pos h]
  · intro zset limit window_seconds now hmem
    simp only [redisCheckLimit, redisRetainedTimestamps] at hmem ⊢
    rw [if_neg hmem]
    by_cases h : (((zset.filter
        (fun ts => !(decide (0 ≤ ts) && decide (ts ≤ now - (window_seconds : Rat))))).length :
          Int) ≥ limit)
    · rw [if_pos h]
    · rw [if_neg h]

/-- Witness for the amended claim C2 at concrete inputs: identity s1 holding
timestamp 100, limit 1, window 60, current time 130. -/
theorem rejected_admission_window_state_witness :
    imCheckLimit [(("s1"), [(100 : Rat)])] ("s1") 1 60 130 =
      (.rejected 60,
        assocSet [(("s1"), [(100 : Rat)])] ("s1")
          (retainedTimestamps [(("s1"), [(100 : Rat)])] ("s1") 60 130)) ∧
    (redisCheckLimit [(100 : Rat)] 1 60 130).2 =
      redisRetainedTimestamps [(100 : Rat)] 60 130 ++ [130] := by
  constructor
  · exact rejected_admission_window_state.1 _ _ _ _ _
      (by norm_num [retainedTimestamps, assocGetD, assocGet, List.filter])
  · exact rejected_admission_window_state.2 _ _ _ _
      (by norm_num [redisRetainedTimestamps, List.filter])

/-- Claim C7. The Redis-backed cache fails open: when the underlying read
raises, get_teaching_response returns None after bumping only the miss
counter and leaves the store untouched, and when the underlying write raises,
set_teaching_response returns normally with the state unchanged; neither
failure propagates to the caller, both functions being total. -/
theorem cache_fail_open (questionHash : String → String)
    (dec : String → Option TeachingResponse) (enc : TeachingResponse → String)
    (st : RedisCacheState) (now : Int) (req : TeachingRequest)
    (resp : TeachingResponse) (ttl_seconds : Option Int) :
    (redisGetTeachingResponse questionHash dec st now req true).1 = none ∧
    (redisGetTeachingResponse questionHash dec st now req true).2.missCount =
      st.missCount + 1 ∧
    (redisGetTeachingResponse questionHash dec st now req true).2.hitCount =
      st.hitCount ∧
    (redisGetTeachingResponse questionHash dec st now req true).2.db = st.db ∧
    redisSetTeachingResponse questionHash enc st now req resp ttl_seconds true = st := by
  simp [redisGetTeachingResponse, redisSetTeachingResponse]

theorem dropWhile_replicate_of_neg {p : Char → Bool} {c : Char} (h : p c = false)
    (n : Nat) : (List.replicate n c).dropWhile p = List.replicate n c := by
  cases n with
  | zero => rfl
  | succ m => simp [List.replicate, List.dropWhile, h]

theorem pyStrip_longCharAnswer : pyStrip longCharAnswer = longCharAnswer := by
  have hws : isPyWhitespace 'a' = false := by decide
  unfold pyStrip longCharAnswer
  rw [dropWhile_replicate_of_neg hws, List.reverse_replicate,
    dropWhile_replicate_of_neg hws, List.reverse_replicate]

theorem pyStrip_longCharAnswer_length : (pyStrip longCharAnswer).length = 2001 := by
  rw [pyStrip_longCharAnswer]
  show (List.replicate 2001 'a').length = 2001
  rw [List.length_replicate]

/-- Claim C8, counterexample. A stripped raw answer of 2001 characters is
post-processed to its first 2000 characters followed by the three-character
marker, a string of 2003 characters: the processed answer is not at most
2000 characters long. -/
theorem post_process_length_counterexample :
    ¬ ((postProcessResponse longCharAnswer).length ≤ 2000) := by
  have heq : postProcessResponse longCharAnswer =
      (⟨(pyStrip longCharAnswer).data.take 2000⟩ : String) ++ "..." := by
    unfold postProcessResponse
    rw [if_pos (by rw [pyStrip_longCharAnswer_length]; omega)]
  have hA : longCharAnswer.data.length = 2001 := by
    show (List.replicate 2001 'a').length = 2001
    rw [List.length_replicate]
  have hfin : (postProcessResponse longCharAnswer).length = 2003 := by
    rw [heq, pyStrip_longCharAnswer]
    show ((⟨longCharAnswer.data.take 2000⟩ : String) ++ "...").data.length = 2003
    rw [string_data_append, List.length_append, List.length_take, hA]
    rfl
  rw [hfin]; omega

/-- Claim C8, amended. Post-processing strips the raw answer; when the
stripped answer exceeds 2000 characters the result is its first 2000
characters with the marker appended, for a total of 2003 characters (not at
most 2000), and otherwise the stripped answer is returned unmodified, so
every post-processed answer is at most 2003 characters long. -/
theorem post_process_truncation (raw : String) :
    (postProcessResponse raw).length ≤ 2003 ∧
    ((pyStrip raw).length > 2000 →
      postProcessResponse raw = (⟨(pyStrip raw).data.take 2000⟩ : String) ++ "..." ∧
      (postProcessResponse raw).length = 2003) ∧
    ((pyStrip raw).length ≤ 2000 → postProcessResponse raw = pyStrip raw) := by
  have hdata : ∀ s : String, s.length = s.data.length := fun s => rfl
  by_cases h : (pyStrip raw).length > 2000
  · have heq : postProcessResponse raw =
        (⟨(pyStrip raw).data.take 2000⟩ : String) ++ "..." := by
      unfold postProcessResponse
      rw [if_pos h]
    have hlen : (postProcessResponse raw).length = 2003 := by
      rw [heq, hdata, string_data_append]
      simp only [List.length_append, List.length_take]
      rw [hdata] at h
      have : min 2000 (pyStrip raw).data.length = 2000 := by omega
      rw [this]
      rfl
    exact ⟨by omega, fun _ => ⟨heq, hlen⟩, fun hc => by omega⟩
  · have heq : postProcessResponse raw = pyStrip raw := by
      unfold postProcessResponse
      rw [if_neg h]
    exact ⟨by rw [heq]; omega, fun hc => by omega, fun _ => heq⟩

/-- Witness for the amended claim C8: the 2001-character answer is truncated
to exactly 2003 characters with the marker, and the short answer hi is
returned unmodified. -/
theorem post_process_truncation_witness :
    (postProcessResponse longCharAnswer =
      (⟨(pyStrip longCharAnswer).data.take 2000⟩ : String) ++ "..." ∧
    (postProcessResponse longCharAnswer).length = 2003) ∧
    postProcessResponse ("hi") = pyStrip ("hi") := by
  constructor
  · exact (post_process_truncation longCharAnswer).2.1
      (by rw [pyStrip_longCharAnswer_length]; omega)
  · exact (post_process_truncation ("hi")).2.2 (by decide)

/-- Claim C10. An empty-string model preference behaves exactly as an absent
one: with every other field fixed, the derived cache fingerprint and the
routing decision agree between a request whose model_preference is the empty
string and the identical request with no model_preference. -/
theorem empty_preference_equals_absent (questionHash : String → String)
    (availableModels : List String) (defaultModel : String) (sid q : String)
    (subj : Subject) (gl : GradeLevel) (hist : List ConversationMessage)
    (ctx : Option (List (String × String))) :
    generateCacheKey questionHash
        ⟨sid, q, subj, gl, hist, some "", ctx⟩ =
      generateCacheKey questionHash ⟨sid, q, subj, gl, hist, none, ctx⟩ ∧
    selectModel ⟨sid, q, subj, gl, hist, some "", ctx⟩ availableModels defaultModel =
      selectModel ⟨sid, q, subj, gl, hist, none, ctx⟩ availableModels defaultModel := by
  constructor
  · simp [generateCacheKey, pyOrStr]
  · simp [selectModel, selectModelHeuristic]

/-- Claim C3, counterexample. The in-memory cache service accepts a TTL but
never consults it and its lookups consult no clock at all: after storing the
sample entry with ttl_seconds = 1, the (time-independent) lookup still
returns the entry, so the lookup performed after the TTL window has elapsed
reports a hit rather than the required miss. -/
theorem inmemory_cache_ignores_ttl_counterexample :
    (imGetTeachingResponse constHash
        (imSetTeachingResponse constHash {} sampleMathRequest sampleCachedResponse
          (some 1))
        sampleMathRequest).1 = some sampleCachedResponse := by
  simp only [imGetTeachingResponse, imSetTeachingResponse]
  rw [assocGet_assocSet_self]

/-- Claim C3, amended. The TTL invariant holds of the Redis-backed cache
service, whose store enforces expiry: an entry stored at time now with
effective TTL ttl_seconds (or the default TTL when that argument is None or
0) is never returned by a lookup at any time later than now + TTL, which
reports a miss; the in-memory development cache ignores TTL entirely and may
return entries forever. -/
theorem redis_cache_ttl_expiry (questionHash : String → String)
    (enc : TeachingResponse → String) (dec : String → Option TeachingResponse)
    (st : RedisCacheState) (now : Int) (req : TeachingRequest)
    (resp : TeachingResponse) (ttl_seconds : Option Int) (t : Int)
    (h : t > now + pyOrInt ttl_seconds st.defaultTtl) :
    (redisGetTeachingResponse questionHash dec
        (redisSetTeachingResponse questionHash enc st now req resp ttl_seconds false)
        t req false).1 = none ∧
    (redisGetTeachingResponse questionHash dec
        (redisSetTeachingResponse questionHash enc st now req resp ttl_seconds false)
        t req false).2.missCount = st.missCount + 1 := by
  have hget : redisGetKey
      (redisSetex st.db now (generateCacheKey questionHash req) (enc resp)
        (pyOrInt ttl_seconds st.defaultTtl))
      t (generateCacheKey questionHash req) = none := by
    unfold redisGetKey redisSetex
    rw [assocGet_assocSet_self]
    exact if_neg (by omega)
  simp [redisGetTeachingResponse, redisSetTeachingResponse, hget]

/-- Witness for the amended claim C3: an entry stored at time 0 with TTL 1 is
missed by the lookup at time 2, after the TTL window. -/
theorem redis_cache_ttl_expiry_witness :
    (redisGetTeachingResponse constHash (fun _ => none)
        (redisSetTeachingResponse constHash (fun _ => ("enc")) {} 0
          sampleMathRequest sampleCachedResponse (some 1) false)
        2 sampleMathRequest false).1 = none ∧
    (redisGetTeachingResponse constHash (fun _ => none)
        (redisSetTeachingResponse constHash (fun _ => ("enc")) {} 0
          sampleMathRequest sampleCachedResponse (some 1) false)
        2 sampleMathRequest false).2.missCount = ({} : RedisCacheState).missCount + 1 :=
  redis_cache_ttl_expiry constHash (fun _ => ("enc")) (fun _ => none) {} 0
    sampleMathRequest sampleCachedResponse (some 1) 2 (by decide)

theorem filter_partition_length {α : Type} (p : α → Bool) (l : List α) :
    (l.filter p).length + (l.filter (fun a => !(p a))).length = l.length := by
  induction l with
  | nil => rfl
  | cons hd tl ih =>
    by_cases h : p hd
    · simp [List.filter, h, ← ih]; omega
    · simp [List.filter, h, ← ih]; omega

/-- Claim C9, counterexample. The in-memory invalidation deletes the entries
whose key merely contains the pattern minus its asterisks as a substring, not
those matching the glob pattern: on a cache holding one math and one science
entry, invalidate with pattern science:* deletes 1 entry even though no key
glob-matches that pattern (keys start with teaching:), contradicting
deletes all and only the glob-matching entries. -/
theorem invalidate_not_glob_counterexample :
    (imInvalidateCache sampleTwoEntryCache ("science:*")).1 = 1 ∧
    sampleTwoEntryCache.cache.all
      (fun kv => !(globMatch ("science:*").data kv.1.data)) = true := by
  constructor
  · decide
  · decide

/-- Claim C9, amended. The Redis-backed invalidate, whose SCAN loop delegates
matching to the server's glob MATCH, deletes all and only the entries whose
key matches the glob pattern and returns the number removed, as the claim
states; the in-memory implementation instead deletes all and only the entries
whose key contains the pattern with every asterisk removed as a substring,
returning that count (in both, deleted and surviving entries partition the
store, so the count is 0 on an empty store or when nothing matches); the
concrete scenario holds for both: after storing one math-subject and one
science-subject entry, invalidating teaching:math:* deletes exactly 1
entry. -/
theorem invalidate_pattern_semantics :
    (∀ (st : RedisCacheState) (pat : String),
      (redisInvalidateCache st pat false).1 =
        (st.db.filter (fun kv => globMatch pat.data kv.1.data)).length ∧
      (redisInvalidateCache st pat false).2.db =
        st.db.filter (fun kv => !(globMatch pat.data kv.1.data)) ∧
      st.db.length = (redisInvalidateCache st pat false).1 +
        (redisInvalidateCache st pat false).2.db.length) ∧
    (∀ (st : InMemCacheState) (pat : String),
      (imInvalidateCache st pat).1 =
        (st.cache.filter (fun kv =>
          containsSub kv.1.data (pat.data.filter (fun c => !(c == '*'))))).length ∧
      (imInvalidateCache st pat).2.cache =
        st.cache.filter (fun kv =>
          !(containsSub kv.1.data (pat.data.filter (fun c => !(c == '*'))))) ∧
      st.cache.length =
        (imInvalidateCache st pat).1 + (imInvalidateCache st pat).2.cache.length) ∧
    (redisInvalidateCache sampleTwoEntryRedisCache ("teaching:math:*") false).1 = 1 ∧
    (imInvalidateCache sampleTwoEntryCache ("teaching:math:*")).1 = 1 := by
  refine ⟨?_, ?_, ?_, ?_⟩
  · intro st pat
    refine ⟨rfl, rfl, ?_⟩
    have h := filter_partition_length
      (fun kv => globMatch pat.data kv.1.data) st.db
    simp only [redisInvalidateCache, Bool.false_eq_true, if_false]
    omega
  · intro st pat
    refine ⟨by simp [imInvalidateCache], rfl, ?_⟩
    have h := filter_partition_length
      (fun kv => containsSub kv.1.data (pat.data.filter (fun c => !(c == '*'))))
      st.cache
    simp only [imInvalidateCache, List.length_map]
    omega
  · decide
  · decide

theorem subject_advanced_value_iff (s : Subject) :
    s.value ∈ advancedSubjects ↔
      (s = .physics ∨ s = .chemistry ∨ s = .computer_science) := by
  cases s <;> decide

theorem grade_value_college_iff (g : GradeLevel) :
    g.value = "college" ↔ g = .college := by
  cases g <;> decide

theorem specIsComplex_iff_bool (req : TeachingRequest) :
    specIsComplex req ↔
      (decide (req.question.length > 500) || pyTruthyCtx req.additional_context ||
        (req.grade_level.value == "college")) = true := by
  unfold specIsComplex
  simp [Bool.or_eq_true, decide_eq_true_eq, beq_iff_eq, grade_value_college_iff,
    or_assoc]

theorem specIsAdvanced_iff_bool (req : TeachingRequest) :
    specIsAdvanced req ↔ decide (req.subject.value ∈ advancedSubjects) = true := by
  unfold specIsAdvanced
  simp [decide_eq_true_eq]
  exact (subject_advanced_value_iff req.subject).symm

theorem selectModelHeuristic_eq_spec (req : TeachingRequest)
    (availableModels : List String) (defaultModel : String) :
    selectModelHeuristic req availableModels defaultModel =
      (if specIsComplex req ∧ specIsAdvanced req ∧
          "llama3-8b-advanced" ∈ availableModels then "llama3-8b-advanced"
       else defaultModel) := by
  simp only [selectModelHeuristic]
  by_cases hC : specIsComplex req
  · by_cases hA : specIsAdvanced req
    · have hb : ((decide (req.question.length > 500) ||
          pyTruthyCtx req.additional_context ||
          (req.grade_level.value == "college")) &&
          decide (req.subject.value ∈ advancedSubjects)) = true := by
        rw [Bool.and_eq_true]
        exact ⟨(specIsComplex_iff_bool req).mp hC, (specIsAdvanced_iff_bool req).mp hA⟩
      rw [hb]
      by_cases hM : "llama3-8b-advanced" ∈ availableModels
      · rw [if_pos rfl, if_pos hM, if_pos ⟨hC, hA, hM⟩]
      · rw [if_pos rfl, if_neg hM, if_neg (by tauto)]
    · have hb : ((decide (req.question.length > 500) ||
          pyTruthyCtx req.additional_context ||
          (req.grade_level.value == "college")) &&
          decide (req.subject.value ∈ advancedSubjects)) = false := by
        apply Bool.eq_false_iff.mpr
        intro htrue
        rw [Bool.and_eq_true] at htrue
        exact hA ((specIsAdvanced_iff_bool req).mpr htrue.2)
      rw [hb]
      rw [if_neg (by simp), if_neg (by tauto)]
  · have hb : ((decide (req.question.length > 500) ||
        pyTruthyCtx req.additional_context ||
        (req.grade_level.value == "college")) &&
        decide (req.subject.value ∈ advancedSubjects)) = false := by
      apply Bool.eq_false_iff.mpr
      intro htrue
      rw [Bool.and_eq_true] at htrue
      exact hC ((specIsComplex_iff_bool req).mpr htrue.1)
    rw [hb]
    rw [if_neg (by simp), if_neg (by tauto)]

/-- Claim C5. Model routing decision order: _select_model is a pure function
of the request and the registry data (the available-model list and the
default model id) and coincides with the spec's first-match-wins decision
list: an explicit (truthy) model preference present in the available-model
list is returned verbatim; otherwise a complex request (question over 500
characters, or auxiliary context present, or college grade level) on an
advanced subject (physics, chemistry or computer science) routes to the
upgraded model llama3-8b-advanced when it is available; otherwise the
default model is returned. -/
theorem model_routing_decision_order (req : TeachingRequest)
    (availableModels : List String) (defaultModel : String) :
    selectModel req availableModels defaultModel =
      specModelRouterSelect req availableModels defaultModel := by
  unfold selectModel specModelRouterSelect
  cases hp : req.model_preference with
  | none => simp [selectModelHeuristic_eq_spec, pyTruthyStr]
  | some p =>
    by_cases he : p = ""
    · subst he
      simp [selectModelHeuristic_eq_spec, pyTruthyStr]
    · by_cases hm : p ∈ availableModels
      · simp [pyTruthyStr, he, hm]
      · simp [selectModelHeuristic_eq_spec, pyTruthyStr, he, hm]

theorem generateCacheKey_congr (questionHash : String → String)
    {r1 r2 : TeachingRequest} (h : sameFingerprintFields r1 r2) :
    generateCacheKey questionHash r1 = generateCacheKey questionHash r2 := by
  obtain ⟨hs, hg, hm, hq⟩ := h
  unfold generateCacheKey
  rw [hs, hg, hm, hq]

theorem generateCacheKey_ne (questionHash : String → String)
    {r1 r2 : TeachingRequest} (h : oneFingerprintFieldChanged questionHash r1 r2) :
    generateCacheKey questionHash r1 ≠ generateCacheKey questionHash r2 := by
  intro heq
  have hd := congrArg String.data heq
  rw [generateCacheKey_data, generateCacheKey_data] at hd
  have hd2 := List.append_cancel_left hd
  rcases h with ⟨hs, hg, hm, hq⟩ | ⟨hs, hg, hm, hq⟩ | ⟨hs, hg, hm, hq⟩ |
    ⟨hs, hg, hm, hq, hh⟩
  · rw [hg, hm, hq] at hd2
    obtain ⟨hS, -⟩ := List.append_inj' hd2 rfl
    exact hs (subjectValue_inj _ _ (string_data_inj hS))
  · rw [hs, hm, hq] at hd2
    have h3 := List.append_cancel_left hd2
    injection h3 with h31 h32
    obtain ⟨hG, -⟩ := List.append_inj' h32 rfl
    exact hg (gradeLevelValue_inj _ _ (string_data_inj hG))
  · rw [hs, hg, hq] at hd2
    have h3 := List.append_cancel_left hd2
    injection h3 with h31 h32
    have h4 := List.append_cancel_left h32
    injection h4 with h41 h42
    obtain ⟨hM, -⟩ := List.append_inj' h42 rfl
    exact hm (string_data_inj hM)
  · rw [hs, hg, hm] at hd2
    have h3 := List.append_cancel_left hd2
    injection h3 with h31 h32
    have h4 := List.append_cancel_left h32
    injection h4 with h41 h42
    have h5 := List.append_cancel_left h42
    injection h5 with h51 h52
    exact hh (string_data_inj h52)

/-- Claim C4. Cache round-trip and fingerprint sensitivity: when two requests
agree on subject, grade level, effective model (the literal preference or the
literal token default when none was supplied) and question text, a lookup
with the second request after a store under the first returns the stored
entry; when exactly one of those four fields changes (for the question-text
field, with distinct truncated question digests, the collision-resistance the
spec itself assumes), the fingerprints differ and the lookup of the changed
request against a cache holding only the original entry misses. -/
theorem cache_roundtrip_and_fingerprint_sensitivity (questionHash : String → String)
    (r1 r2 : TeachingRequest) (resp : TeachingResponse) (st : InMemCacheState) :
    (sameFingerprintFields r1 r2 →
      (imGetTeachingResponse questionHash
        (imSetTeachingResponse questionHash st r1 resp none) r2).1 = some resp) ∧
    (oneFingerprintFieldChanged questionHash r1 r2 →
      generateCacheKey questionHash r1 ≠ generateCacheKey questionHash r2 ∧
      (imGetTeachingResponse questionHash
        (imSetTeachingResponse questionHash {} r1 resp none) r2).1 = none) := by
  constructor
  · intro h
    have hk := generateCacheKey_congr questionHash h
    simp only [imGetTeachingResponse, imSetTeachingResponse]
    rw [← hk, assocGet_assocSet_self]
  · intro h
    have hk := generateCacheKey_ne questionHash h
    refine ⟨hk, ?_⟩
    simp only [imGetTeachingResponse, imSetTeachingResponse]
    rw [assocGet_assocSet_ne _ _ _ _ hk]
    rfl

/-- Witness for claim C4: storing under the math request and looking up with
the identical request hits the stored answer, while the science request,
which differs only in the subject, has a different fingerprint and misses. -/
theorem cache_roundtrip_and_fingerprint_sensitivity_witness :
    (imGetTeachingResponse constHash
        (imSetTeachingResponse constHash {} sampleMathRequest sampleCachedResponse
          none) sampleMathRequest).1 = some sampleCachedResponse ∧
    generateCacheKey constHash sampleMathRequest ≠
      generateCacheKey constHash sampleScienceRequest ∧
    (imGetTeachingResponse constHash
        (imSetTeachingResponse constHash {} sampleMathRequest sampleCachedResponse
          none) sampleScienceRequest).1 = none := by
  have h1 := (cache_roundtrip_and_fingerprint_sensitivity constHash sampleMathRequest
    sampleMathRequest sampleCachedResponse {}).1 ⟨rfl, rfl, rfl, rfl⟩
  have h2 := (cache_roundtrip_and_fingerprint_sensitivity constHash sampleMathRequest
    sampleScienceRequest sampleCachedResponse {}).2 (Or.inl ⟨by decide, rfl, rfl, rfl⟩)
  exact ⟨h1, h2.1, h2.2⟩

/-- Claim C6. On a cache hit, ask_question returns a response that reuses
every cached field verbatim (answer, model used, tokens used, estimated cost,
confidence, follow-up suggestions, learning resources), re-stamps only the
elapsed processing time and reports source cache. -/
theorem cache_hit_reuses_cached_fields (questionHash : String → String)
    (availableModels : List String) (defaultModel : String)
    (provider : String → Except Unit LLMResponse) (now : Rat) (elapsedMs : Int)
    (st : TeachingServiceState) (req : TeachingRequest) (cached : TeachingResponse)
    (hAllow : (imCheckLimit st.limiter req.student_id 10 60 now).1 = .allowed)
    (hHit : (imGetTeachingResponse questionHash st.cacheState req).1 = some cached) :
    (askQuestion questionHash availableModels defaultModel provider now elapsedMs
        st req).1 =
      .ok { answer := cached.answer
            model_used := cached.model_used
            tokens_used := cached.tokens_used
            estimated_cost := cached.estimated_cost
            confidence := cached.confidence
            source := "cache"
            processing_time_ms := elapsedMs
            follow_up_suggestions := cached.follow_up_suggestions
            learning_resources := cached.learning_resources } := by
  unfold askQuestion
  rcases hc : imCheckLimit st.limiter req.student_id 10 60 now with ⟨res, limiter2⟩
  rw [hc] at hAllow
  simp only at hAllow
  cases res with
  | rejected r => exact absurd hAllow (by simp)
  | allowed =>
    rcases hg : imGetTeachingResponse questionHash st.cacheState req with ⟨o, cs2⟩
    rw [hg] at hHit
    simp only at hHit
    subst hHit
    simp [hc, hg]

/-- Witness for claim C6, realizing the concrete scenario: with the answer 4
stored for the math request, asking the identical question again yields
source cache and answer 4, with the processing time re-stamped to the elapsed
5 milliseconds. -/
theorem cache_hit_reuses_cached_fields_witness :
    (askQuestion constHash [] ("phi3-mini-educational") failProvider 0 5
        sampleHitState sampleMathRequest).1 =
      .ok { answer := "4"
            model_used := sampleCachedResponse.model_used
            tokens_used := sampleCachedResponse.tokens_used
            estimated_cost := sampleCachedResponse.estimated_cost
            confidence := sampleCachedResponse.confidence
            source := "cache"
            processing_time_ms := 5
            follow_up_suggestions := sampleCachedResponse.follow_up_suggestions
            learning_resources := sampleCachedResponse.learning_resources } :=
  cache_hit_reuses_cached_fields constHash [] ("phi3-mini-educational") failProvider
    0 5 sampleHitState sampleMathRequest sampleCachedResponse (by decide) (by decide)

end LLMTeaching
